import Mathlib

/-!
Verification of the PanagoreTrades trading engine against its specification.

The Python source is embedded shallowly: money amounts and fee rates are
modelled as exact rationals (`ℚ`), pandas DataFrames as lists of records,
Python `None` as `Option`, and raised exceptions as `Except` errors.
Each definition carries a comment naming the source function it embeds.
-/

namespace PanagoreTrades

/-! ## Python rounding

`round(x, 2)` in Python rounds to the nearest multiple of 1/100,
resolving ties to the even multiple (banker's rounding). -/

/-- Round a rational to the nearest integer, ties to even
(the rounding used by Python's built-in `round`). -/
def pyRoundInt (x : ℚ) : ℤ :=
  let f : ℤ := ⌊x⌋
  let r : ℚ := x - f
  if r < 1/2 then f
  else if 1/2 < r then f + 1
  else if 2 ∣ f then f else f + 1

/-- Model of Python's `round(x, 2)` on exact rationals. -/
def pyRound2 (x : ℚ) : ℚ := (pyRoundInt (100 * x) : ℚ) / 100

theorem pyRoundInt_nonneg {x : ℚ} (h : 0 ≤ x) : 0 ≤ pyRoundInt x := by
  unfold pyRoundInt
  have hf : (0:ℤ) ≤ ⌊x⌋ := Int.floor_nonneg.mpr h
  dsimp only
  split
  · exact hf
  · split
    · omega
    · split <;> omega

theorem pyRoundInt_neg {x : ℚ} (h : x < -(1/2)) : pyRoundInt x < 0 := by
  unfold pyRoundInt
  have hfle : (⌊x⌋ : ℚ) ≤ x := Int.floor_le x
  have hflt : x < (⌊x⌋ : ℚ) + 1 := Int.lt_floor_add_one x
  have hf1 : ⌊x⌋ ≤ -1 := by
    by_contra hc
    push_neg at hc
    have : (0:ℚ) ≤ (⌊x⌋ : ℚ) := by exact_mod_cast hc
    linarith
  dsimp only
  split
  · omega
  · rename_i h1
    push_neg at h1
    have hf2 : ⌊x⌋ ≤ -2 := by
      by_contra hc
      push_neg at hc
      have hfm1 : ⌊x⌋ = -1 := by omega
      rw [hfm1] at hfle hflt
      push_cast at hfle hflt
      have : x - (⌊x⌋ : ℚ) < 1/2 := by
        rw [hfm1]; push_cast; linarith
      linarith
    split
    · omega
    · split <;> omega

theorem pyRound2_nonneg {x : ℚ} (h : 0 ≤ x) : 0 ≤ pyRound2 x := by
  unfold pyRound2
  have h1 : 0 ≤ pyRoundInt (100 * x) := pyRoundInt_nonneg (by linarith)
  have h2 : (0:ℚ) ≤ (pyRoundInt (100 * x) : ℚ) := by exact_mod_cast h1
  positivity

theorem pyRound2_neg {x : ℚ} (h : x < -(1/200)) : pyRound2 x < 0 := by
  unfold pyRound2
  have h1 : pyRoundInt (100 * x) < 0 := pyRoundInt_neg (by linarith)
  have h2 : (pyRoundInt (100 * x) : ℚ) < 0 := by exact_mod_cast h1
  have : (0:ℚ) < 100 := by norm_num
  exact div_neg_of_neg_of_pos h2 this

/-! ## Fee model (warehouse_manager.py, `WarehouseManager`)

The four price/fee functions take the skill level (resp. the fee rates)
as explicit arguments; in the source the `None` default pulls the level
from `self.trading_skills` and the rates from the two rate functions. -/

/-- warehouse_manager.py:57-69, `calculate_broker_fee_rate`:
`max(3.0 - level * 0.1, 2.5)`. -/
def calculate_broker_fee_rate (broker_relations_level : ℤ) : ℚ :=
  max (3.0 - (broker_relations_level : ℚ) * 0.1) 2.5

/-- warehouse_manager.py:71-84, `calculate_sales_tax_rate`:
`max(8.0 * (1 - 0.11 * level), 4.5)`. -/
def calculate_sales_tax_rate (accounting_level : ℤ) : ℚ :=
  max (8.0 * (1 - 0.11 * (accounting_level : ℚ))) 4.5

/-- warehouse_manager.py:86-95, `calculate_effective_buy_price`:
`market_price + market_price * (broker_fee_rate / 100)`. -/
def calculate_effective_buy_price (market_price broker_fee_rate : ℚ) : ℚ :=
  market_price + market_price * (broker_fee_rate / 100)

/-- warehouse_manager.py:97-112, `calculate_effective_sell_price`:
`market_price - (sales_tax + broker_fee)`. -/
def calculate_effective_sell_price (market_price sales_tax_rate broker_fee_rate : ℚ) : ℚ :=
  market_price - (market_price * (sales_tax_rate / 100) + market_price * (broker_fee_rate / 100))

/-- warehouse_manager.py:114-133, `calculate_minimum_profitable_sell_price`:
`(buy_price * (1 + desired_margin)) / (1 - total_fee_rate)`. -/
def calculate_minimum_profitable_sell_price
    (buy_price desired_margin sales_tax_rate broker_fee_rate : ℚ) : ℚ :=
  (buy_price * (1 + desired_margin)) / (1 - (sales_tax_rate + broker_fee_rate) / 100)

/-- C2: for every skill level in [0,5] the broker fee rate is
`max(3.0 - 0.1*level, 2.5)` and the sales tax rate is
`max(8.0*(1 - 0.11*level), 4.5)`; both are pure functions of the level. -/
theorem fee_rate_formulas (level : ℤ) (h0 : 0 ≤ level) (h5 : level ≤ 5) :
    calculate_broker_fee_rate level = max (3.0 - 0.1 * (level : ℚ)) 2.5 ∧
    calculate_sales_tax_rate level = max (8.0 * (1 - 0.11 * (level : ℚ))) 4.5 := by
  refine ⟨?_, rfl⟩
  unfold calculate_broker_fee_rate
  ring_nf

theorem fee_rate_formulas_witness :
    (0:ℤ) ≤ 3 ∧ (3:ℤ) ≤ 5 ∧
    calculate_broker_fee_rate 3 = max (3.0 - 0.1 * ((3:ℤ) : ℚ)) 2.5 ∧
    calculate_sales_tax_rate 3 = max (8.0 * (1 - 0.11 * ((3:ℤ) : ℚ))) 4.5 := by
  refine ⟨by norm_num, by norm_num, ?_⟩
  exact fee_rate_formulas 3 (by norm_num) (by norm_num)

/-- C5: a round trip — buying at the effective buy price and selling at
that same nominal price — always nets strictly less than the market
price, for every positive price and every valid pair of fee rates. -/
theorem round_trip_loses_money (p b t : ℚ) (hp : 0 < p)
    (hb1 : 2.5 ≤ b) (hb2 : b ≤ 3.0) (ht1 : 4.5 ≤ t) (ht2 : t ≤ 8.0) :
    calculate_effective_sell_price (calculate_effective_buy_price p b) t b < p := by
  unfold calculate_effective_buy_price calculate_effective_sell_price
  nlinarith [mul_pos hp (show (0:ℚ) < b by linarith),
    mul_pos hp (show (0:ℚ) < t by linarith)]

theorem round_trip_loses_money_witness :
    (0:ℚ) < 1000000 ∧
    calculate_effective_sell_price (calculate_effective_buy_price 1000000 2.5) 4.5 2.5
      < 1000000 := by
  refine ⟨by norm_num, ?_⟩
  exact round_trip_loses_money 1000000 2.5 4.5 (by norm_num) (by norm_num)
    (by norm_num) (by norm_num) (by norm_num)

/-! ## Transactions and cost basis (warehouse_manager.py) -/

/-- Wallet transaction row, as consumed by the cost-basis and
realized-profit code (columns type_id, location_id, quantity,
unit_price, is_buy, date). Dates are day indices. -/
structure Transaction where
  type_id : ℕ
  location_id : ℕ
  quantity : ℕ
  unit_price : ℚ
  is_buy : Bool
  date : ℕ
  deriving DecidableEq, Repr

/-- Result record of `calculate_cost_basis` (warehouse_manager.py:558-565). -/
structure CostBasis where
  average_cost : ℚ
  total_purchased : ℤ
  total_cost : ℚ
  first_purchase : ℕ
  last_purchase : ℕ
  purchase_count : ℕ
  deriving DecidableEq, Repr

/-- warehouse_manager.py:534-543: the two sequential DataFrame filters of
`calculate_cost_basis`. Python's `if location_id:` is falsy both for
`None` and for the integer 0, so a zero location id applies no filter. -/
def cost_basis_item (cache : List Transaction) (type_id : ℕ) (location_id : Option ℕ) :
    List Transaction :=
  let item0 := cache.filter fun t => t.type_id == type_id && t.is_buy
  match location_id with
  | some l => if l ≠ 0 then item0.filter (fun t => t.location_id == l) else item0
  | none => item0

/-- warehouse_manager.py:526-565, `calculate_cost_basis`: weighted-average
cost basis over the cached buy transactions. -/
def calculate_cost_basis (transactions_cache : Option (List Transaction))
    (type_id : ℕ) (location_id : Option ℕ) : Option CostBasis :=
  match transactions_cache with
  | none => none
  | some cache =>
    if cache.isEmpty then none
    else
      let item := cost_basis_item cache type_id location_id
      if item.isEmpty then none
      else
        let total_cost := (item.map fun t => t.unit_price * (t.quantity : ℚ)).sum
        let total_quantity := (item.map fun t => (t.quantity : ℤ)).sum
        if total_quantity == 0 then none
        else some {
          average_cost := total_cost / (total_quantity : ℚ)
          total_purchased := total_quantity
          total_cost := total_cost
          first_purchase := ((item.map Transaction.date).min?).getD 0
          last_purchase := ((item.map Transaction.date).max?).getD 0
          purchase_count := item.length }

/-- Claim-side matching predicate for the cost basis: a cached buy
transaction of the requested type, restricted to the requested location
when a nonzero one is given (Python truthiness of `location_id`). -/
def costBasisMatches (type_id : ℕ) (location_id : Option ℕ) (t : Transaction) : Bool :=
  t.type_id == type_id && t.is_buy &&
    (match location_id with
     | some l => if l ≠ 0 then t.location_id == l else true
     | none => true)

theorem cost_basis_item_eq_filter (cache : List Transaction) (type_id : ℕ)
    (loc : Option ℕ) :
    cost_basis_item cache type_id loc = cache.filter (costBasisMatches type_id loc) := by
  unfold cost_basis_item costBasisMatches
  cases loc with
  | none => simp
  | some l =>
    by_cases hl : l = 0
    · subst hl; simp
    · simp only [hl, if_pos (by simp [hl] : l ≠ 0), List.filter_filter]
      congr 1
      funext t
      exact Bool.and_comm _ _

theorem sum_quantity_intCast (l : List Transaction) :
    (((l.map fun t => (t.quantity : ℤ)).sum : ℤ) : ℚ) =
      (l.map fun t => ((t.quantity : ℕ) : ℚ)).sum := by
  induction l with
  | nil => simp
  | cons h t ih =>
    simp only [List.map_cons, List.sum_cons, Int.cast_add, ih]
    push_cast
    ring

/-- C3 counterexample input: a single cached buy transaction at location 5. -/
def txLoc5 : Transaction :=
  { type_id := 1, location_id := 5, quantity := 1, unit_price := 100, is_buy := true, date := 0 }

/-- C3 counterexample: with `location_id = 0` supplied, no cached buy
transaction matches location 0, yet `calculate_cost_basis` still returns
an aggregate (it silently drops the location filter), where the claim
demands `none`. -/
theorem cost_basis_location_zero_counterexample :
    [txLoc5].filter (fun t => t.type_id == 1 && t.is_buy && t.location_id == 0) = [] ∧
    calculate_cost_basis (some [txLoc5]) 1 (some 0) =
      some { average_cost := 100, total_purchased := 1, total_cost := 100,
             first_purchase := 0, last_purchase := 0, purchase_count := 1 } := by
  constructor
  · rfl
  · simp [calculate_cost_basis, cost_basis_item, txLoc5]

/-- C3 (amended for Python truthiness of `location_id`): the returned
`average_cost` is the quantity-weighted average unit price over exactly
the cached buy transactions of the requested type (restricted to the
requested location when a nonzero one is given), and the result is
`none` whenever no such transaction exists — including on an absent or
empty cache. -/
theorem cost_basis_weighted_average (cache : List Transaction) (type_id : ℕ)
    (loc : Option ℕ) :
    calculate_cost_basis none type_id loc = none ∧
    (cache.filter (costBasisMatches type_id loc) = [] →
      calculate_cost_basis (some cache) type_id loc = none) ∧
    (∀ cb, calculate_cost_basis (some cache) type_id loc = some cb →
      cb.average_cost =
        ((cache.filter (costBasisMatches type_id loc)).map
            fun t => t.unit_price * (t.quantity : ℚ)).sum /
          ((cache.filter (costBasisMatches type_id loc)).map
            fun t => ((t.quantity : ℕ) : ℚ)).sum) := by
  refine ⟨rfl, ?_, ?_⟩
  · intro hempty
    by_cases h1 : cache.isEmpty <;>
      simp [calculate_cost_basis, cost_basis_item_eq_filter, hempty, h1]
  · intro cb hcb
    simp only [calculate_cost_basis, cost_basis_item_eq_filter] at hcb
    set item := cache.filter (costBasisMatches type_id loc) with hitem
    by_cases h1 : cache.isEmpty
    · simp [h1] at hcb
    · rw [if_neg h1] at hcb
      by_cases h2 : item.isEmpty
      · simp [h2] at hcb
      · rw [if_neg h2] at hcb
        by_cases h3 : (item.map fun t => (t.quantity : ℤ)).sum == 0
        · simp [h3] at hcb
        · rw [if_neg h3] at hcb
          have hstruct := Option.some_inj.mp hcb
          rw [← hstruct]
          dsimp only
          rw [sum_quantity_intCast]

/-- C3 witness: for buys [(qty=10, price=100), (qty=5, price=130)] the
average cost is (1000+650)/15 = 110, obtained through the amended
theorem at that concrete cache. -/
theorem cost_basis_weighted_average_witness :
    calculate_cost_basis
      (some [{ type_id := 34, location_id := 60003760, quantity := 10, unit_price := 100,
               is_buy := true, date := 0 },
             { type_id := 34, location_id := 60003760, quantity := 5, unit_price := 130,
               is_buy := true, date := 1 }]) 34 none =
      some { average_cost := 110, total_purchased := 15, total_cost := 1650,
             first_purchase := 0, last_purchase := 1, purchase_count := 2 } ∧
    (110 : ℚ) = (10 * 100 + 5 * 130) / 15 := by
  constructor
  · have h := (cost_basis_weighted_average
      [{ type_id := 34, location_id := 60003760, quantity := 10, unit_price := 100,
         is_buy := true, date := 0 },
       { type_id := 34, location_id := 60003760, quantity := 5, unit_price := 130,
         is_buy := true, date := 1 }] 34 none).2.2
    have hval : calculate_cost_basis
        (some [{ type_id := 34, location_id := 60003760, quantity := 10, unit_price := 100,
                 is_buy := true, date := 0 },
               { type_id := 34, location_id := 60003760, quantity := 5, unit_price := 130,
                 is_buy := true, date := 1 }]) 34 none =
        some { average_cost := (100 * 10 + 130 * 5) / 15, total_purchased := 15,
               total_cost := 100 * 10 + 130 * 5, first_purchase := 0, last_purchase := 1,
               purchase_count := 2 } := by
      unfold calculate_cost_basis cost_basis_item
      norm_num
    rw [hval]
    norm_num
  · norm_num

/-! ## Realized profit (warehouse_manager.py:429-524) -/

/-- Python exceptions arising in the embedded code paths. -/
inductive PyExn where
  | attributeError (name : String)
  | unboundLocalError (name : String)
  | nameError (name : String)
  deriving DecidableEq, Repr

/-- Result dictionary of `calculate_actual_realized_profit`
(warehouse_manager.py:436-443, 505-512, 516-524); `error` records
whether the exception branch added its `'error'` key. -/
structure RealizedProfitResult where
  total_realized_profit : ℚ
  total_sales_revenue : ℚ
  total_cost_of_goods_sold : ℚ
  total_fees_paid : ℚ
  transactions_analyzed : ℕ
  period_days : ℕ
  error : Bool
  deriving DecidableEq, Repr

/-- All-zero result dictionary returned on the early-exit and exception
paths of `calculate_actual_realized_profit`. -/
def zeroRealizedResult (days_back : ℕ) (err : Bool) : RealizedProfitResult :=
  { total_realized_profit := 0, total_sales_revenue := 0, total_cost_of_goods_sold := 0,
    total_fees_paid := 0, transactions_analyzed := 0, period_days := days_back, error := err }

/-- The attribute `get_item_cost_basis` looked up at
warehouse_manager.py:494. The `WarehouseManager` class defines no method
of that name — the call site is the name's only occurrence in the
repository — so in Python the lookup `self.get_item_cost_basis` raises
`AttributeError`. An absent attribute is modelled as `none`. -/
def get_item_cost_basis_attr :
    Option (ℕ → ℕ → List Transaction → Option ℚ) := none

/-- warehouse_manager.py:477-500: the per-sell-transaction loop of
`calculate_actual_realized_profit`, accumulating
(revenue, cost of goods sold, fees, count). The attribute lookup at
line 494 sits inside the loop, so the first sell transaction raises. -/
def realized_profit_loop (sell_transactions transactions_df : List Transaction)
    (broker_fee_rate sales_tax_rate : ℚ) : Except PyExn (ℚ × ℚ × ℚ × ℕ) :=
  sell_transactions.foldlM
    (fun acc t => do
      let (rev, cogs, fees, n) := acc
      let gross_revenue := (t.quantity : ℚ) * t.unit_price
      let rev := rev + gross_revenue
      let broker_fee := gross_revenue * (broker_fee_rate / 100)
      let sales_tax := gross_revenue * (sales_tax_rate / 100)
      let fees := fees + (broker_fee + sales_tax)
      match get_item_cost_basis_attr with
      | none => Except.error (PyExn.attributeError "get_item_cost_basis")
      | some get_item_cost_basis =>
        let cogs := match get_item_cost_basis t.type_id t.location_id transactions_df with
          | some cost_per_unit => cogs + (t.quantity : ℚ) * cost_per_unit
          | none => cogs
        Except.ok (rev, cogs, fees, n + 1))
    (0, 0, 0, 0)

/-- warehouse_manager.py:429-524, `calculate_actual_realized_profit`.
`transactions_df` stands for the rows returned by the corporation
transaction fetch, and the two rates for the values of
`self.calculate_broker_fee_rate()` / `self.calculate_sales_tax_rate()`.
The blanket `except` at line 514 converts any exception raised in the
body into the all-zero dictionary plus an `'error'` key. -/
def calculate_actual_realized_profit (authenticated : Bool)
    (transactions_df : List Transaction) (broker_fee_rate sales_tax_rate : ℚ)
    (days_back : ℕ) : RealizedProfitResult :=
  if !authenticated then zeroRealizedResult days_back false
  else if transactions_df.isEmpty then zeroRealizedResult days_back false
  else
    let sell_transactions := transactions_df.filter fun t => t.is_buy == false
    if sell_transactions.isEmpty then zeroRealizedResult days_back false
    else
      match realized_profit_loop sell_transactions transactions_df
          broker_fee_rate sales_tax_rate with
      | Except.error _ => zeroRealizedResult days_back true
      | Except.ok (rev, cogs, fees, n) =>
        { total_realized_profit := pyRound2 (rev - fees - cogs)
          total_sales_revenue := pyRound2 rev
          total_cost_of_goods_sold := pyRound2 cogs
          total_fees_paid := pyRound2 fees
          transactions_analyzed := n
          period_days := days_back
          error := false }

/-- Realized profit as the specification's §4.5 step defines it:
`Σ(gross_revenue) − Σ(fees) − Σ(cost_of_goods_sold)` over the sell-side
transactions, with `fees = gross_revenue·(broker+tax)/100` and
`cost_of_goods_sold = quantity · CostBasis.average_cost` for that
(type_id, location_id) when a cost basis is known, else 0. Stated from
the spec's words for comparison against the source's implementation. -/
def spec_realized_profit (txs : List Transaction)
    (broker_fee_rate sales_tax_rate : ℚ) : ℚ :=
  let sells := txs.filter fun t => t.is_buy == false
  let gross := (sells.map fun t => (t.quantity : ℚ) * t.unit_price).sum
  let fees := (sells.map fun t =>
    (t.quantity : ℚ) * t.unit_price * ((broker_fee_rate + sales_tax_rate) / 100)).sum
  let cogs := (sells.map fun t =>
    (t.quantity : ℚ) *
      ((calculate_cost_basis (some txs) t.type_id (some t.location_id)).elim 0
        CostBasis.average_cost)).sum
  gross - fees - cogs

/-- C1 failing input: ten units bought at 600 (so the cost basis at that
item/location is 600), then two sold at 1000. -/
def syntheticTxs : List Transaction :=
  [{ type_id := 34, location_id := 60003760, quantity := 10, unit_price := 600,
     is_buy := true, date := 0 },
   { type_id := 34, location_id := 60003760, quantity := 2, unit_price := 1000,
     is_buy := false, date := 1 }]

/-- C1: at the synthetic transaction set the specification's formula
yields 2000 − 140 − 1200 = 660, but `calculate_actual_realized_profit`
returns the all-zero dictionary with an error marker: its loop calls the
nonexistent method `get_item_cost_basis`, so the first sell transaction
raises `AttributeError` and the blanket `except` discards the
computation. The fee rates are those of the default skills (level 5:
broker 2.5%, tax 4.5%). -/
theorem realized_profit_unreachable :
    calculate_actual_realized_profit true syntheticTxs
        (calculate_broker_fee_rate 5) (calculate_sales_tax_rate 5) 30 =
      zeroRealizedResult 30 true ∧
    spec_realized_profit syntheticTxs
        (calculate_broker_fee_rate 5) (calculate_sales_tax_rate 5) = 660 := by
  constructor
  · rfl
  · have hbroker : calculate_broker_fee_rate 5 = 2.5 := by
      unfold calculate_broker_fee_rate
      norm_num
    have htax : calculate_sales_tax_rate 5 = 4.5 := by
      unfold calculate_sales_tax_rate
      norm_num
    simp only [spec_realized_profit, syntheticTxs, hbroker, htax]
    simp [calculate_cost_basis, cost_basis_item]
    norm_num

/-! ## Per-item analysis (warehouse_manager.py:824-913)

Identification fields (item name) and the attached order-book
bookkeeping (`active_orders`, order counts, spread) are carried by the
source dict but touched by no claim; the numeric pricing and profit
fields are embedded in full. -/

/-- Numeric fields of the per-item analysis dict
(warehouse_manager.py:876-911). All stored money values are rounded to
two decimals as in the source. -/
structure ItemAnalysis where
  type_id : ℕ
  quantity : ℕ
  location_id : ℕ
  avg_buy_price : ℚ
  min_sell_price : ℚ
  realistic_sell_price : ℚ
  actual_cost_per_unit : ℚ
  has_cost_basis : Bool
  effective_buy_price : ℚ
  effective_sell_price : ℚ
  actual_effective_cost : ℚ
  min_profitable_sell_price : ℚ
  current_value : ℚ
  actual_profit : ℚ
  theoretical_profit_per_unit : ℚ
  actual_profit_per_unit : ℚ
  deriving DecidableEq, Repr

/-- warehouse_manager.py:824-913: analysis of one asset, given its
market snapshot, its cost basis lookup result, and the manager's fee
rates. `market_avg_buy_price` and `realistic_sell_price` are the
already-derived market figures of lines 838 and 844. -/
def analyze_item (type_id location_id quantity : ℕ) (cost_basis : Option CostBasis)
    (market_avg_buy_price realistic_sell_price min_sell_price : ℚ)
    (broker_fee_rate sales_tax_rate : ℚ) : ItemAnalysis :=
  let actual_cost_per_unit := (cost_basis.map CostBasis.average_cost).getD market_avg_buy_price
  let avg_buy_price := (cost_basis.map CostBasis.average_cost).getD market_avg_buy_price
  let effective_buy_price := calculate_effective_buy_price avg_buy_price broker_fee_rate
  let effective_sell_price :=
    calculate_effective_sell_price realistic_sell_price sales_tax_rate broker_fee_rate
  let actual_effective_cost := calculate_effective_buy_price actual_cost_per_unit broker_fee_rate
  let min_profitable_sell := calculate_minimum_profitable_sell_price actual_effective_cost 0.05
    sales_tax_rate broker_fee_rate
  let current_value := effective_sell_price * (quantity : ℚ)
  let actual_value := (effective_sell_price - actual_effective_cost) * (quantity : ℚ)
  { type_id := type_id
    quantity := quantity
    location_id := location_id
    avg_buy_price := pyRound2 avg_buy_price
    min_sell_price := pyRound2 min_sell_price
    realistic_sell_price := pyRound2 realistic_sell_price
    actual_cost_per_unit := pyRound2 actual_cost_per_unit
    has_cost_basis := cost_basis.isSome
    effective_buy_price := pyRound2 effective_buy_price
    effective_sell_price := pyRound2 effective_sell_price
    actual_effective_cost := pyRound2 actual_effective_cost
    min_profitable_sell_price := pyRound2 min_profitable_sell
    current_value := pyRound2 current_value
    actual_profit := pyRound2 actual_value
    theoretical_profit_per_unit := pyRound2 (max 0 (effective_sell_price - effective_buy_price))
    actual_profit_per_unit := pyRound2 (max 0 (effective_sell_price - actual_effective_cost)) }

theorem pyRound2_zero : pyRound2 0 = 0 := by
  unfold pyRound2 pyRoundInt
  norm_num

/-- C10 counterexample: with default-skill fee rates, cost basis absent,
market average 1 and realistic sell 512/465, the unrounded per-unit
shortfall is 1.025 − 1.024 = 0.001, so two-decimal rounding stores
`actual_profit = 0`: not negative, and equal to
`actual_profit_per_unit * quantity` — the claimed inequality fails at
this input even though the effective sell price is below the actual
effective cost. -/
theorem item_profit_rounding_counterexample :
    calculate_effective_sell_price (512/465) (calculate_sales_tax_rate 5)
        (calculate_broker_fee_rate 5) <
      calculate_effective_buy_price 1 (calculate_broker_fee_rate 5) ∧
    (analyze_item 34 60003760 1 none 1 (512/465) (512/465)
        (calculate_broker_fee_rate 5) (calculate_sales_tax_rate 5)).actual_profit = 0 ∧
    ¬ (analyze_item 34 60003760 1 none 1 (512/465) (512/465)
        (calculate_broker_fee_rate 5) (calculate_sales_tax_rate 5)).actual_profit < 0 ∧
    (analyze_item 34 60003760 1 none 1 (512/465) (512/465)
          (calculate_broker_fee_rate 5) (calculate_sales_tax_rate 5)).actual_profit =
      (analyze_item 34 60003760 1 none 1 (512/465) (512/465)
          (calculate_broker_fee_rate 5) (calculate_sales_tax_rate 5)).actual_profit_per_unit
        * (1 : ℚ) := by
  have hb : calculate_broker_fee_rate 5 = 2.5 := by
    unfold calculate_broker_fee_rate; norm_num
  have ht : calculate_sales_tax_rate 5 = 4.5 := by
    unfold calculate_sales_tax_rate; norm_num
  have hap : (analyze_item 34 60003760 1 none 1 (512/465) (512/465)
      (calculate_broker_fee_rate 5) (calculate_sales_tax_rate 5)).actual_profit = 0 := by
    simp only [analyze_item, hb, ht, Option.map_none', Option.getD_none, Option.isSome_none]
    unfold calculate_effective_sell_price calculate_effective_buy_price pyRound2 pyRoundInt
    norm_num
  have happu : (analyze_item 34 60003760 1 none 1 (512/465) (512/465)
      (calculate_broker_fee_rate 5) (calculate_sales_tax_rate 5)).actual_profit_per_unit = 0 := by
    simp only [analyze_item, hb, ht, Option.map_none', Option.getD_none, Option.isSome_none]
    unfold calculate_effective_sell_price calculate_effective_buy_price pyRound2 pyRoundInt
    norm_num
  refine ⟨?_, hap, ?_, ?_⟩
  · rw [hb, ht]
    unfold calculate_effective_sell_price calculate_effective_buy_price
    norm_num
  · rw [hap]; norm_num
  · rw [hap, happu]; norm_num

/-- C10 (amended with the rounding proviso): the stored
`theoretical_profit_per_unit` and `actual_profit_per_unit` are clamped
to be nonnegative, while the stored `actual_profit` total is not; for an
item whose effective sell price is below its actual effective cost,
`actual_profit_per_unit` is 0, and provided the total shortfall exceeds
half a cent (so two-decimal rounding keeps its sign), the stored
`actual_profit` is negative and so differs from
`actual_profit_per_unit * quantity`. -/
theorem item_profit_clamping (type_id location_id quantity : ℕ)
    (cost_basis : Option CostBasis) (mkt rsp msp b t : ℚ)
    (hsell : calculate_effective_sell_price rsp t b <
      calculate_effective_buy_price ((cost_basis.map CostBasis.average_cost).getD mkt) b)
    (hshort : 1/200 <
      (calculate_effective_buy_price ((cost_basis.map CostBasis.average_cost).getD mkt) b -
        calculate_effective_sell_price rsp t b) * (quantity : ℚ)) :
    0 ≤ (analyze_item type_id location_id quantity cost_basis mkt rsp msp b t).theoretical_profit_per_unit ∧
    0 ≤ (analyze_item type_id location_id quantity cost_basis mkt rsp msp b t).actual_profit_per_unit ∧
    (analyze_item type_id location_id quantity cost_basis mkt rsp msp b t).actual_profit_per_unit = 0 ∧
    (analyze_item type_id location_id quantity cost_basis mkt rsp msp b t).actual_profit < 0 ∧
    (analyze_item type_id location_id quantity cost_basis mkt rsp msp b t).actual_profit ≠
      (analyze_item type_id location_id quantity cost_basis mkt rsp msp b t).actual_profit_per_unit
        * (quantity : ℚ) := by
  simp only [analyze_item]
  set aec := calculate_effective_buy_price ((cost_basis.map CostBasis.average_cost).getD mkt) b
    with haec
  set esp := calculate_effective_sell_price rsp t b with hesp
  have hmax : max 0 (esp - aec) = 0 := by
    apply max_eq_left
    linarith
  have hneg : pyRound2 ((esp - aec) * (quantity : ℚ)) < 0 := by
    apply pyRound2_neg
    nlinarith
  refine ⟨pyRound2_nonneg (le_max_left _ _), pyRound2_nonneg (le_max_left _ _), ?_, hneg, ?_⟩
  · rw [hmax, pyRound2_zero]
  · rw [hmax, pyRound2_zero, zero_mul]
    exact ne_of_lt hneg

/-- C10 witness: a unit bought (by market estimate) at 1000 and sellable
at 1: the stored per-unit profits are clamped at 0 while the stored
total `actual_profit` is strictly negative and differs from
`actual_profit_per_unit * quantity`. -/
theorem item_profit_clamping_witness :
    calculate_effective_sell_price 1 4.5 2.5 <
      calculate_effective_buy_price (((none : Option CostBasis).map CostBasis.average_cost).getD 1000) 2.5 ∧
    (analyze_item 34 60003760 1 none 1000 1 1 2.5 4.5).actual_profit_per_unit = 0 ∧
    (analyze_item 34 60003760 1 none 1000 1 1 2.5 4.5).actual_profit < 0 ∧
    (analyze_item 34 60003760 1 none 1000 1 1 2.5 4.5).actual_profit ≠
      (analyze_item 34 60003760 1 none 1000 1 1 2.5 4.5).actual_profit_per_unit * ((1 : ℕ) : ℚ) := by
  have h1 : calculate_effective_sell_price 1 4.5 2.5 <
      calculate_effective_buy_price (((none : Option CostBasis).map CostBasis.average_cost).getD 1000) 2.5 := by
    unfold calculate_effective_sell_price calculate_effective_buy_price
    norm_num
  have h2 : (1:ℚ)/200 <
      (calculate_effective_buy_price (((none : Option CostBasis).map CostBasis.average_cost).getD 1000) 2.5 -
        calculate_effective_sell_price 1 4.5 2.5) * ((1 : ℕ) : ℚ) := by
    unfold calculate_effective_sell_price calculate_effective_buy_price
    norm_num
  have h := item_profit_clamping 34 60003760 1 none 1000 1 1 2.5 4.5 h1 h2
  exact ⟨h1, h.2.2.1, h.2.2.2.1, h.2.2.2.2⟩

/-! ## Trade hub configuration and the hub-analysis entry check
(warehouse_manager.py:24-30, 777-798) -/

/-- Region and station ids of one configured hub. -/
structure HubConfig where
  region_id : ℕ
  station_id : ℕ
  deriving DecidableEq, Repr

/-- warehouse_manager.py:24-30: the five configured trade hubs. -/
def trade_hubs : List (String × HubConfig) :=
  [("Jita", { region_id := 10000002, station_id := 60003760 }),
   ("Amarr", { region_id := 10000043, station_id := 60008494 }),
   ("Rens", { region_id := 10000030, station_id := 60004588 }),
   ("Dodixie", { region_id := 10000032, station_id := 60011866 }),
   ("Hek", { region_id := 10000042, station_id := 60005686 })]

/-- External effects performed by the body of `analyze_warehouse_hub`
after its entry check. -/
inductive FetchEffect where
  | fetchAssets
  | fetchTransactions
  | fetchOrders
  | fetchMarketPrices
  deriving DecidableEq, Repr

/-- warehouse_manager.py:777-785: the entry of `analyze_warehouse_hub`.
The membership test on `self.trade_hubs` and the `ValueError` raise come
before any await or request; `body` abstracts the remainder of the
function (lines 785-930), which receives the hub's configuration and is
modelled as returning the trace of fetches it performs along with its
result. -/
def analyze_warehouse_hub_entry {α : Type} (hub_name : String)
    (body : HubConfig → List FetchEffect × α) : List FetchEffect × Except String α :=
  match trade_hubs.find? (fun p => p.1 == hub_name) with
  | none => ([], Except.error ("Unknown trade hub: " ++ hub_name))
  | some p =>
    let (trace, a) := body p.2
    (trace, Except.ok a)

/-- C8: an unknown hub name is rejected immediately — a `ValueError`
with a clear message, raised before any fetch is performed (the effect
trace is empty) — and a configured hub name is never rejected. -/
theorem unknown_hub_rejected {α : Type} (hub_name : String)
    (body : HubConfig → List FetchEffect × α) :
    (hub_name ∉ trade_hubs.map Prod.fst →
      analyze_warehouse_hub_entry hub_name body =
        ([], Except.error ("Unknown trade hub: " ++ hub_name))) ∧
    (hub_name ∈ trade_hubs.map Prod.fst →
      ∃ a, (analyze_warehouse_hub_entry hub_name body).2 = Except.ok a) := by
  constructor
  · intro hnot
    unfold analyze_warehouse_hub_entry
    have hfind : trade_hubs.find? (fun p => p.1 == hub_name) = none := by
      rw [List.find?_eq_none]
      intro p hp
      simp only [beq_iff_eq]
      intro heq
      exact hnot (List.mem_map.mpr ⟨p, hp, heq⟩)
    rw [hfind]
  · intro hmem
    unfold analyze_warehouse_hub_entry
    obtain ⟨p, hp, heq⟩ := List.mem_map.mp hmem
    have hsome : (trade_hubs.find? (fun q => q.1 == hub_name)).isSome := by
      rw [List.find?_isSome]
      exact ⟨p, hp, by simp [heq]⟩
    obtain ⟨q, hq⟩ := Option.isSome_iff_exists.mp hsome
    rw [hq]
    exact ⟨(body q.2).2, rfl⟩

/-- C8 witness: "Perimeter" is rejected with an empty effect trace;
"Jita" is not rejected. -/
theorem unknown_hub_rejected_witness :
    analyze_warehouse_hub_entry "Perimeter" (fun cfg => ([FetchEffect.fetchAssets], cfg)) =
      ([], Except.error "Unknown trade hub: Perimeter") ∧
    ∃ a, (analyze_warehouse_hub_entry "Jita"
        (fun cfg => ([FetchEffect.fetchAssets], cfg))).2 = Except.ok a := by
  constructor
  · exact (unknown_hub_rejected "Perimeter" _).1 (by decide)
  · exact (unknown_hub_rejected "Jita" _).2 (by decide)

/-! ## Trading skills (warehouse_manager.py:33-42, app.py:530-558) -/

/-- warehouse_manager.py:33-42: the default skill levels of a fresh
`WarehouseManager`. -/
def default_trading_skills : List (String × ℤ) :=
  [("broker_relations", 5), ("accounting", 5), ("margin_trading", 4), ("marketing", 4),
   ("procurement", 4), ("daytrading", 0), ("visibility", 0), ("trade", 3)]

/-- app.py:545: `max(0, min(5, int(level)))`. -/
def clamp_skill_level (level : ℤ) : ℤ := max 0 (min 5 level)

/-- Assignment `trading_skills[skill] = v` for a key already present:
replace the value at that key. -/
def set_skill (skills : List (String × ℤ)) (name : String) (level : ℤ) : List (String × ℤ) :=
  skills.map fun p => if p.1 == name then (p.1, level) else p

/-- app.py:542-545, the update loop of `update_trading_skills`: each
provided (skill, level) pair is applied — clamped into [0,5] — only when
the skill name is already present in the manager's `trading_skills`. -/
def update_trading_skills (skills : List (String × ℤ)) (provided : List (String × ℤ)) :
    List (String × ℤ) :=
  provided.foldl
    (fun acc kv =>
      if (acc.map Prod.fst).contains kv.1 then set_skill acc kv.1 (clamp_skill_level kv.2)
      else acc)
    skills

theorem set_skill_keys (skills : List (String × ℤ)) (name : String) (level : ℤ) :
    (set_skill skills name level).map Prod.fst = skills.map Prod.fst := by
  induction skills with
  | nil => rfl
  | cons a t ih =>
    simp only [set_skill, List.map_cons]
    have ih2 : List.map Prod.fst
        (List.map (fun p => if p.1 == name then (p.1, level) else p) t) =
        List.map Prod.fst t := ih
    rw [ih2]
    by_cases h : a.1 == name <;> simp [h]

theorem mem_set_skill {p : String × ℤ} {skills : List (String × ℤ)} {name : String}
    {level : ℤ} (hmem : p ∈ set_skill skills name level) : p ∈ skills ∨ p.2 = level := by
  unfold set_skill at hmem
  obtain ⟨q, hq, heq⟩ := List.mem_map.mp hmem
  by_cases h : q.1 == name
  · rw [if_pos h] at heq
    right
    rw [← heq]
  · rw [if_neg h] at heq
    left
    rw [← heq]
    exact hq

theorem update_trading_skills_invariant (provided : List (String × ℤ)) :
    ∀ skills : List (String × ℤ),
      (update_trading_skills skills provided).map Prod.fst = skills.map Prod.fst ∧
      ((∀ p ∈ skills, 0 ≤ p.2 ∧ p.2 ≤ 5) →
        ∀ p ∈ update_trading_skills skills provided, 0 ≤ p.2 ∧ p.2 ≤ 5) := by
  induction provided with
  | nil => intro skills; exact ⟨rfl, fun h => h⟩
  | cons kv rest ih =>
    intro skills
    have hstep : update_trading_skills skills (kv :: rest) =
        update_trading_skills
          (if (skills.map Prod.fst).contains kv.1 then
            set_skill skills kv.1 (clamp_skill_level kv.2)
          else skills) rest := rfl
    by_cases hc : (skills.map Prod.fst).contains kv.1
    · rw [hstep, if_pos hc]
      refine ⟨?_, ?_⟩
      · rw [(ih _).1, set_skill_keys]
      · intro hrange p hp
        refine (ih _).2 ?_ p hp
        intro q hq
        rcases mem_set_skill hq with hmem | hval
        · exact hrange q hmem
        · unfold clamp_skill_level at hval
          omega
    · rw [hstep, if_neg hc]
      exact ih skills

/-- C9: the default skill levels all lie in [0,5]; the update operation
preserves the key set (only names already present are modified) and
clamps every applied level into [0,5], so every stored level stays in
[0,5] and the fee-rate functions only ever see levels in range. -/
theorem skill_levels_in_range :
    (∀ p ∈ default_trading_skills, 0 ≤ p.2 ∧ p.2 ≤ 5) ∧
    ∀ (skills provided : List (String × ℤ)),
      (update_trading_skills skills provided).map Prod.fst = skills.map Prod.fst ∧
      ((∀ p ∈ skills, 0 ≤ p.2 ∧ p.2 ≤ 5) →
        ∀ p ∈ update_trading_skills skills provided, 0 ≤ p.2 ∧ p.2 ≤ 5) := by
  constructor
  · decide
  · intro skills provided
    exact update_trading_skills_invariant provided skills

/-- C9 witness: updating the defaults with an out-of-range level (99)
and an unknown skill name keeps the key set unchanged and every stored
level inside [0,5]. -/
theorem skill_levels_in_range_witness :
    (update_trading_skills default_trading_skills
        [("broker_relations", 99), ("no_such_skill", 7)]).map Prod.fst =
      default_trading_skills.map Prod.fst ∧
    ∀ p ∈ update_trading_skills default_trading_skills
        [("broker_relations", 99), ("no_such_skill", 7)], 0 ≤ p.2 ∧ p.2 ≤ 5 := by
  refine ⟨(skill_levels_in_range.2 _ _).1, (skill_levels_in_range.2 _ _).2 ?_⟩
  decide

/-! ## Region price-delta opportunities and their filters
(app.py:135-191, TradeHub_API.py:95-121) -/

/-- One grouped-by-typeid row of the delta computation (app.py:111-121,
TradeHub_API.py:69-78). `typename = none` models a NaN name after a
failed reference-table merge. -/
structure OppRow where
  typeid : ℕ
  typename : Option String
  max_price : ℚ
  min_price : ℚ
  delta : ℚ
  delta_percentage : ℚ
  max_tradehub : String
  min_tradehub : String
  max_vol_yesterday : ℤ
  min_vol_yesterday : ℤ
  deriving DecidableEq, Repr

/-- app.py:135-191, `TradingAnalyzer._filter_opportunities`: the chain
of DataFrame filters, the hub-subset filter — applied only when more
than one hub is selected (`if selected_hubs and len(selected_hubs) > 1`,
where Python treats both `None` and `[]` as falsy) — the sort by
`delta_percentage` descending, and the conversion loop that skips rows
with a NaN `typename`. -/
def optional_filter {α β : Type} (o : Option β) (p : β → α → Bool) (l : List α) :
    List α :=
  match o with
  | some v => l.filter (p v)
  | none => l

def optional_filter_pair {α β : Type} (o : Option β) (p q : β → α → Bool) (l : List α) :
    List α :=
  match o with
  | some v => (l.filter (p v)).filter (q v)
  | none => l

def filter_opportunities (data : List OppRow) (selected_hubs : Option (List String))
    (min_margin max_margin : ℚ) (min_volume : ℤ) (max_volume : Option ℤ)
    (min_price_f : ℚ) (max_price_f : Option ℚ) (min_profit_f max_profit_f : Option ℚ) :
    List OppRow :=
  let filtered := data.filter fun r => decide (min_volume ≤ r.min_vol_yesterday)
  let filtered := filtered.filter fun r => decide (min_volume ≤ r.max_vol_yesterday)
  let filtered := optional_filter_pair max_volume
    (fun mv r => decide (r.min_vol_yesterday ≤ mv))
    (fun mv r => decide (r.max_vol_yesterday ≤ mv)) filtered
  let filtered := filtered.filter fun r => decide (min_margin ≤ r.delta_percentage)
  let filtered := filtered.filter fun r => decide (r.delta_percentage ≤ max_margin)
  let filtered := filtered.filter fun r => decide (min_price_f ≤ r.min_price)
  let filtered := optional_filter max_price_f
    (fun mp r => decide (r.max_price ≤ mp)) filtered
  let filtered := optional_filter min_profit_f
    (fun mp r => decide (mp ≤ r.delta)) filtered
  let filtered := optional_filter max_profit_f
    (fun mp r => decide (r.delta ≤ mp)) filtered
  let filtered := if 1 < (selected_hubs.getD []).length then
      filtered.filter fun r =>
        (selected_hubs.getD []).contains r.min_tradehub &&
          (selected_hubs.getD []).contains r.max_tradehub
    else filtered
  let sorted := filtered.mergeSort fun a b => decide (b.delta_percentage ≤ a.delta_percentage)
  sorted.filter fun r => r.typename.isSome

/-- TradeHub_API.py:95-121: the standalone report's filtering — drop
rows without a resolved name, then STRICT comparisons against
Vol_DAY_min = Vol_DAY_max = 75, the (20, 1500) margin band and the
100000 price floor, then sort by `delta_percentage` descending. -/
def region_trade_filter (rows : List OppRow) : List OppRow :=
  let kept := rows.filter fun r => r.typename.isSome
  let kept := kept.filter fun r => decide (75 < r.min_vol_yesterday)
  let kept := kept.filter fun r => decide (75 < r.max_vol_yesterday)
  let kept := kept.filter fun r => decide (20 < r.delta_percentage)
  let kept := kept.filter fun r => decide (r.delta_percentage < 1500)
  let kept := kept.filter fun r => decide (100000 < r.min_price)
  kept.mergeSort fun a b => decide (b.delta_percentage ≤ a.delta_percentage)

/-- Conjunction of all conditions `_filter_opportunities` checks for a
row, stated at the Prop level. -/
def passes_all_filters (selected_hubs : Option (List String)) (min_margin max_margin : ℚ)
    (min_volume : ℤ) (max_volume : Option ℤ) (min_price_f : ℚ) (max_price_f : Option ℚ)
    (min_profit_f max_profit_f : Option ℚ) (r : OppRow) : Prop :=
  r.typename.isSome = true ∧
  min_volume ≤ r.min_vol_yesterday ∧ min_volume ≤ r.max_vol_yesterday ∧
  (∀ mv, max_volume = some mv → r.min_vol_yesterday ≤ mv ∧ r.max_vol_yesterday ≤ mv) ∧
  min_margin ≤ r.delta_percentage ∧ r.delta_percentage ≤ max_margin ∧
  min_price_f ≤ r.min_price ∧
  (∀ mp, max_price_f = some mp → r.max_price ≤ mp) ∧
  (∀ mp, min_profit_f = some mp → mp ≤ r.delta) ∧
  (∀ mp, max_profit_f = some mp → r.delta ≤ mp) ∧
  (1 < (selected_hubs.getD []).length →
    r.min_tradehub ∈ selected_hubs.getD [] ∧ r.max_tradehub ∈ selected_hubs.getD [])

theorem mem_optional_filter {α β : Type} (o : Option β) (l : List α) (p : β → α → Bool)
    (x : α) :
    x ∈ optional_filter o p l ↔ x ∈ l ∧ ∀ v, o = some v → p v x = true := by
  cases o <;> simp [optional_filter, List.mem_filter]

theorem mem_optional_filter_pair {α β : Type} (o : Option β) (l : List α)
    (p q : β → α → Bool) (x : α) :
    x ∈ optional_filter_pair o p q l ↔
      x ∈ l ∧ ∀ v, o = some v → p v x = true ∧ q v x = true := by
  cases o <;> simp [optional_filter_pair, List.mem_filter] <;> tauto

theorem mem_guarded_filter {α : Type} (c : Prop) [Decidable c] (l : List α) (p : α → Bool)
    (x : α) :
    (x ∈ if c then l.filter p else l) ↔ x ∈ l ∧ (c → p x = true) := by
  by_cases h : c <;> simp [h, List.mem_filter]

set_option maxHeartbeats 1000000 in
theorem mem_filter_opportunities {data : List OppRow} {selected_hubs : Option (List String)}
    {min_margin max_margin : ℚ} {min_volume : ℤ} {max_volume : Option ℤ}
    {min_price_f : ℚ} {max_price_f : Option ℚ} {min_profit_f max_profit_f : Option ℚ}
    {r : OppRow} :
    r ∈ filter_opportunities data selected_hubs min_margin max_margin min_volume
        max_volume min_price_f max_price_f min_profit_f max_profit_f ↔
      r ∈ data ∧ passes_all_filters selected_hubs min_margin max_margin min_volume
        max_volume min_price_f max_price_f min_profit_f max_profit_f r := by
  unfold filter_opportunities passes_all_filters
  simp only [List.mem_filter, List.mem_mergeSort, mem_optional_filter,
    mem_optional_filter_pair, mem_guarded_filter, Bool.and_eq_true, decide_eq_true_eq]
  simp only [List.contains_iff_exists_mem_beq, beq_iff_eq, exists_eq_right,
    exists_eq_right']
  tauto

theorem mem_region_trade_filter {rows : List OppRow} {r : OppRow} :
    r ∈ region_trade_filter rows ↔
      r ∈ rows ∧ r.typename.isSome = true ∧
        75 < r.min_vol_yesterday ∧ 75 < r.max_vol_yesterday ∧
        20 < r.delta_percentage ∧ r.delta_percentage < 1500 ∧ 100000 < r.min_price := by
  unfold region_trade_filter
  simp [List.mem_filter, List.mem_mergeSort, decide_eq_true_eq]
  tauto

/-- C4 counterexample row: both extreme-hub volumes exactly 75, every
other condition comfortably satisfied. -/
def row75 : OppRow :=
  { typeid := 34, typename := some "Tritanium", max_price := 300000, min_price := 150000,
    delta := 150000, delta_percentage := 100, max_tradehub := "Jita", min_tradehub := "Amarr",
    max_vol_yesterday := 75, min_vol_yesterday := 75 }

/-- C4 counterexample: in the standalone report's filtering
(TradeHub_API.py:114-115 uses strict `>`), an item whose two extreme-hub
volumes are both exactly 75 is excluded at the default threshold, even
though every other filter conjunct holds — the claim's "≥ min_volume,
and 75 passes" reading fails for that filter. -/
theorem volume_threshold_counterexample :
    row75.min_vol_yesterday = 75 ∧ row75.max_vol_yesterday = 75 ∧
    row75.typename.isSome = true ∧ 20 < row75.delta_percentage ∧
    row75.delta_percentage < 1500 ∧ 100000 < row75.min_price ∧
    region_trade_filter [row75] = [] := by
  refine ⟨rfl, rfl, rfl, by norm_num [row75], by norm_num [row75], by norm_num [row75], ?_⟩
  simp [region_trade_filter, row75]

/-- C4 (amended): in the live endpoint's `_filter_opportunities`, a row
is returned only if both extreme-hub volumes are ≥ min_volume, and
conversely a row of the data satisfying all the filter conjuncts is
returned — so volumes exactly equal to the threshold pass there; in the
standalone report's filtering the volume comparisons are strict (> 75),
so a row with both volumes exactly 75 is excluded there. -/
theorem volume_filter_semantics :
    (∀ (data : List OppRow) (sel : Option (List String)) (mm xm : ℚ) (mv : ℤ)
        (xv : Option ℤ) (mp : ℚ) (xp mpr xpr : Option ℚ) (r : OppRow),
      r ∈ filter_opportunities data sel mm xm mv xv mp xp mpr xpr →
        mv ≤ r.min_vol_yesterday ∧ mv ≤ r.max_vol_yesterday) ∧
    (∀ (data : List OppRow) (sel : Option (List String)) (mm xm : ℚ) (mv : ℤ)
        (xv : Option ℤ) (mp : ℚ) (xp mpr xpr : Option ℚ) (r : OppRow),
      r ∈ data → passes_all_filters sel mm xm mv xv mp xp mpr xpr r →
        r ∈ filter_opportunities data sel mm xm mv xv mp xp mpr xpr) ∧
    (∀ (rows : List OppRow) (r : OppRow),
      r ∈ region_trade_filter rows →
        75 < r.min_vol_yesterday ∧ 75 < r.max_vol_yesterday) := by
  refine ⟨?_, ?_, ?_⟩
  · intro data sel mm xm mv xv mp xp mpr xpr r hr
    have h := (mem_filter_opportunities.mp hr).2
    exact ⟨h.2.1, h.2.2.1⟩
  · intro data sel mm xm mv xv mp xp mpr xpr r hr hp
    exact mem_filter_opportunities.mpr ⟨hr, hp⟩
  · intro rows r hr
    have h := mem_region_trade_filter.mp hr
    exact ⟨h.2.2.1, h.2.2.2.1⟩

/-- C4 witness: `row75` (both volumes exactly 75) is returned by the
live filter at the default thresholds (min_volume = 75, margin band
[20, 1500], price floor 100000, no hub subset). -/
theorem volume_filter_semantics_witness :
    row75 ∈ [row75] ∧
    passes_all_filters none 20 1500 75 none 100000 none none none row75 ∧
    row75 ∈ filter_opportunities [row75] none 20 1500 75 none 100000 none none none := by
  have hp : passes_all_filters none 20 1500 75 none 100000 none none none row75 := by
    unfold passes_all_filters
    refine ⟨rfl, by norm_num [row75], by norm_num [row75], by simp, by norm_num [row75],
      by norm_num [row75], by norm_num [row75], by simp, by simp, by simp, by simp⟩
  exact ⟨List.mem_singleton.mpr rfl,
    hp,
    (volume_filter_semantics.2.1 [row75] none 20 1500 75 none 100000 none none none row75
      (List.mem_singleton.mpr rfl) hp)⟩

/-- C6 counterexample row: extremes at Rens and Hek, all default
filters satisfied. -/
def rowRensHek : OppRow :=
  { typeid := 44992, typename := some "PLEX", max_price := 5000000, min_price := 4000000,
    delta := 1000000, delta_percentage := 25, max_tradehub := "Hek", min_tradehub := "Rens",
    max_vol_yesterday := 500, min_vol_yesterday := 400 }

/-- C6 counterexample: with the non-empty singleton selection
`["Jita"]`, the hub filter is skipped (`len(selected_hubs) > 1` fails),
so a cached row whose extremes are Rens and Hek is still returned —
both extremes lie outside the selection. -/
theorem hub_subset_counterexample :
    rowRensHek ∈ filter_opportunities [rowRensHek] (some ["Jita"]) 20 1500 75 none
        100000 none none none ∧
    rowRensHek.min_tradehub ∉ ["Jita"] ∧ rowRensHek.max_tradehub ∉ ["Jita"] := by
  refine ⟨?_, by decide, by decide⟩
  apply mem_filter_opportunities.mpr
  refine ⟨List.mem_singleton.mpr rfl, ?_⟩
  unfold passes_all_filters
  refine ⟨rfl, by norm_num [rowRensHek], by norm_num [rowRensHek], by simp,
    by norm_num [rowRensHek], by norm_num [rowRensHek], by norm_num [rowRensHek],
    by simp, by simp, by simp, ?_⟩
  intro hlen
  simp at hlen

/-- C6 (amended): whenever a hub subset with at least two hubs is
supplied, every returned opportunity has both its min_tradehub and its
max_tradehub inside the selection, for every input dataset; a selection
of exactly one hub (or an empty one) disables the hub filter. -/
theorem hub_subset_restriction (data : List OppRow) (sel : List String)
    (mm xm : ℚ) (mv : ℤ) (xv : Option ℤ) (mp : ℚ) (xp mpr xpr : Option ℚ) (r : OppRow)
    (hsel : 2 ≤ sel.length)
    (hr : r ∈ filter_opportunities data (some sel) mm xm mv xv mp xp mpr xpr) :
    r.min_tradehub ∈ sel ∧ r.max_tradehub ∈ sel := by
  have h := (mem_filter_opportunities.mp hr).2
  have hcond : 1 < ((some sel).getD []).length := by
    simp only [Option.getD_some]
    omega
  simpa using h.2.2.2.2.2.2.2.2.2.2 hcond

/-- C6 witness: with the two-hub selection ["Rens", "Hek"], the returned
row's extremes both lie inside the selection. -/
theorem hub_subset_restriction_witness :
    (2 ≤ (["Rens", "Hek"] : List String).length) ∧
    rowRensHek ∈ filter_opportunities [rowRensHek] (some ["Rens", "Hek"]) 20 1500 75 none
        100000 none none none ∧
    rowRensHek.min_tradehub ∈ (["Rens", "Hek"] : List String) ∧
    rowRensHek.max_tradehub ∈ (["Rens", "Hek"] : List String) := by
  have hmem : rowRensHek ∈ filter_opportunities [rowRensHek] (some ["Rens", "Hek"])
      20 1500 75 none 100000 none none none := by
    apply mem_filter_opportunities.mpr
    refine ⟨List.mem_singleton.mpr rfl, ?_⟩
    unfold passes_all_filters
    refine ⟨rfl, by norm_num [rowRensHek], by norm_num [rowRensHek], by simp,
      by norm_num [rowRensHek], by norm_num [rowRensHek], by norm_num [rowRensHek],
      by simp, by simp, by simp, ?_⟩
    intro hlen
    exact ⟨by simp [rowRensHek], by simp [rowRensHek]⟩
  exact ⟨by norm_num,
    hmem,
    hub_subset_restriction [rowRensHek] ["Rens", "Hek"] 20 1500 75 none 100000 none none
      none rowRensHek (by norm_num) hmem⟩

/-! ## The 7-day profit-history endpoint (app.py:296-365)

Python determines a function's local names statically: any name assigned
anywhere in a `def`'s body without a `global` declaration is local for
the whole body, and reading it before its first assignment raises
`UnboundLocalError`. `get_profit_history` declares only
`global esi_client` (app.py:299) but assigns `warehouse_manager` at
line 310, so the read at line 309 is a local read. -/

/-- One entry of the `daily_profits` list (app.py:323-327 / 38-42).
Dates are day indices. -/
structure DayEntry where
  date : ℕ
  profit : ℚ
  trades : ℕ
  deriving DecidableEq, Repr

/-- The JSON body built at app.py:352-357. -/
structure ProfitHistoryResponse where
  success : Bool
  daily_profits : List DayEntry
  total_7_day_profit : ℚ
  average_daily_profit : ℚ
  deriving DecidableEq, Repr

/-- Names assigned (as plain assignment targets or loop variables)
somewhere in the body of `get_profit_history` (app.py:303, 310,
313-315, 318-322, 332, 335, 339-343, 350). -/
def profit_history_assigned_names : List String :=
  ["esi_client", "warehouse_manager", "total_profit_data", "total_profit", "total_trades",
   "days", "base_date", "day", "is_today", "i", "profit"]

/-- Names covered by a `global` declaration in `get_profit_history`
(app.py:299). -/
def profit_history_global_decls : List String := ["esi_client"]

/-- Python's static scoping rule for this function: a name is local iff
it is assigned in the body and not declared `global`. -/
def profit_history_is_local (x : String) : Bool :=
  profit_history_assigned_names.contains x && !(profit_history_global_decls.contains x)

/-- Name lookup inside `get_profit_history`: a local name resolves in
the frame's locals — raising `UnboundLocalError` when not yet assigned —
and any other name falls through to the module globals. -/
def profit_history_read_name {α : Type} (frame_locals : List (String × α))
    (globals_env : String → Option α) (x : String) : Except PyExn α :=
  if profit_history_is_local x then
    match (frame_locals.find? fun p => p.1 == x).map Prod.snd with
    | some v => Except.ok v
    | none => Except.error (PyExn.unboundLocalError x)
  else
    match globals_env x with
    | some v => Except.ok v
    | none => Except.error (PyExn.nameError x)

/-- Data held by a constructed `WarehouseManager`, as needed by the
realized-profit call at app.py:313. -/
structure WarehouseManagerState where
  transactions_df : List Transaction
  broker_fee_rate : ℚ
  sales_tax_rate : ℚ
  deriving DecidableEq, Repr

/-- app.py:32-43, `_create_zero_profit_days`: seven consecutive days of
zero profit and zero trades ending today. -/
def create_zero_profit_days (today : ℕ) : List DayEntry :=
  (List.range 7).map fun i => { date := today - 6 + i, profit := 0, trades := 0 }

/-- app.py:338-348: the mock fallback used only when `days` is empty. -/
def mock_profit_days (today : ℕ) : List DayEntry :=
  (List.range 7).map fun i =>
    { date := today - 7 + i,
      profit := (1200000 + i * 150000 + (i % 3) * 200000 : ℕ),
      trades := 15 + i * 2 }

/-- app.py:307-327: the inner `try` body of the authenticated branch.
Its first action (line 309, `if warehouse_manager is None:`) reads the
name `warehouse_manager`; no local assignment has executed at that
point, so the frame's locals are empty. The remainder (lines 310-327)
computes the 7-day realized profit and places it on the last day. -/
def profit_history_try_body (wm_global : Option WarehouseManagerState)
    (authenticated : Bool) (today : ℕ) : Except PyExn (List DayEntry) := do
  let wm ← profit_history_read_name ([] : List (String × Option WarehouseManagerState))
    (fun x => if x = "warehouse_manager" then some wm_global else none) "warehouse_manager"
  let wm_state := wm.getD
    { transactions_df := [], broker_fee_rate := calculate_broker_fee_rate 5,
      sales_tax_rate := calculate_sales_tax_rate 5 }
  let total_profit_data := calculate_actual_realized_profit authenticated
    wm_state.transactions_df wm_state.broker_fee_rate wm_state.sales_tax_rate 7
  let total_profit := total_profit_data.total_realized_profit
  let total_trades := total_profit_data.transactions_analyzed
  pure ((List.range 7).map fun i =>
    { date := today - 6 + i,
      profit := if i == 6 then total_profit else 0,
      trades := if i == 6 then total_trades else 0 })

/-- app.py:296-365, `get_profit_history`: authenticated requests run the
`try` body, any exception falls back to the zero days (line 329-332);
unauthenticated requests use the zero days directly (line 335); an empty
`days` list would be replaced by mock data (lines 337-348); the response
reports the summed profit and its 7-day average. -/
def get_profit_history (authenticated : Bool)
    (wm_global : Option WarehouseManagerState) (today : ℕ) : ProfitHistoryResponse :=
  let days :=
    if authenticated then
      match profit_history_try_body wm_global authenticated today with
      | Except.ok d => d
      | Except.error _ => create_zero_profit_days today
    else create_zero_profit_days today
  let days := if days.isEmpty then mock_profit_days today else days
  let total_profit := (days.map DayEntry.profit).sum
  { success := true, daily_profits := days, total_7_day_profit := total_profit,
    average_daily_profit := total_profit / 7 }

/-- C7: for every authentication state and every prior value of the
`warehouse_manager` global, the handler returns success with exactly the
seven zero-profit, zero-trade days and a zero 7-day total: the read of
`warehouse_manager` at app.py:309 precedes its only (local) assignment,
so the authenticated path always raises `UnboundLocalError` and lands in
the zero-data fallback before the realized-profit computation is
reached. -/
theorem profit_history_always_zero (authenticated : Bool)
    (wm_global : Option WarehouseManagerState) (today : ℕ) :
    get_profit_history authenticated wm_global today =
      { success := true, daily_profits := create_zero_profit_days today,
        total_7_day_profit := 0, average_daily_profit := 0 } ∧
    (create_zero_profit_days today).length = 7 ∧
    ∀ d ∈ create_zero_profit_days today, d.profit = 0 ∧ d.trades = 0 := by
  have htry : profit_history_try_body wm_global authenticated today =
      Except.error (PyExn.unboundLocalError "warehouse_manager") := by
    unfold profit_history_try_body profit_history_read_name
    rfl
  have hne : (create_zero_profit_days today).isEmpty = false := rfl
  have hsum : ((create_zero_profit_days today).map DayEntry.profit).sum = 0 := by
    apply List.sum_eq_zero
    intro x hx
    obtain ⟨d, hd, hdx⟩ := List.mem_map.mp hx
    obtain ⟨i, hi, hid⟩ := List.mem_map.mp hd
    rw [← hdx, ← hid]
  refine ⟨?_, by simp [create_zero_profit_days], ?_⟩
  · unfold get_profit_history
    cases authenticated <;>
      simp only [htry, Bool.false_eq_true, if_true, if_false, hne, hsum, zero_div]
  · intro d hd
    obtain ⟨i, hi, hid⟩ := List.mem_map.mp hd
    rw [← hid]
    exact ⟨rfl, rfl⟩

end PanagoreTrades
